import Mathlib

/-!
# Verification of `internal/app/unitofwork/uow.go`

Shallow embedding of the `UnitOfWork.Atomic` orchestrator
(`src/internal/app/unitofwork/uow.go`) and proofs of the spec claims.

The Go function coordinates external collaborators through interfaces:
a storage backend (`db.Begin`), a context factory (`uow.newContext`),
a transaction handle (`tx.Rollback`), an atomic context
(`atomicCtx.CollectEvents`, plus `Commit`/`Close` which are declared in the
`AtomicContext` interface but never called by `Atomic`), an event sink
(`uow.msgBus.PublishEvents`), and a logger (`uow.logger.Error`).

The embedding makes every collaborator's behaviour an explicit input (a
`World`), and `Atomic` returns both its outcome (returned error or a
propagated panic value) and the ordered trace of collaborator calls it
performed.  Go's `defer`/`recover` semantics are encoded directly in the
control flow, following the source line by line:

* `tx, err := uow.db.Begin(ctx)` (line 51): failure returns
  `stateRollbackError(err)` at once (lines 52-54).
* `atomicCtx, err := uow.newContext(tx)` (line 56): failure returns
  `stateRollbackError(err)` (lines 57-59).  A panic inside the factory
  propagates with no cleanup: the recover-defer of lines 61-68 is not yet
  installed at this point.
* the deferred `recover` block (lines 61-68): on a body panic it calls
  `tx.Rollback()`, logs a rollback failure, and re-panics the same value.
* `txCtx, cancel := context.WithCancel(ctx)` and `defer cancel()`
  (lines 70-71).  Deferred functions run LIFO, so on any exit after this
  point `cancel` runs before the recover block.
* `do(txCtx, atomicCtx)` (line 73): a non-nil error triggers
  `tx.Rollback()` (logging a rollback failure) and returns
  `stateRollbackError(err)` (lines 74-78).
* `uow.msgBus.PublishEvents(atomicCtx.CollectEvents()...)` (line 80):
  failure is logged and the publish error is returned unchanged
  (lines 81-82); otherwise `Atomic` returns nil (line 85).

The atomic context is observed by the orchestrator only through
`CollectEvents`; the event buffer it has accumulated by the time the body
finishes is the `collected` field of the `World`.
-/

namespace UnitOfWork

/-- Go `error` values as seen by `errors.Is`.  `base n` stands for a
distinct atomic error value (created e.g. with `errors.New`);
`errRollback` is the package-level `ErrRollback = errors.New("rollback")`
sentinel (uow.go line 13); `wrapf s e` is `fmt.Errorf(s+": %w", e)`;
`join2 a b` is `errors.Join(a, b)` with two operands. -/
inductive GoError where
  | base : Nat → GoError
  | errRollback : GoError
  | wrapf : String → GoError → GoError
  | join2 : GoError → GoError → GoError
deriving DecidableEq, Repr

/-- Go `errors.Is(e, target)`: `e` matches the target directly, or the
match is found along the unwrap chain (`fmt.Errorf`'s `%w` unwraps to the
wrapped error; `errors.Join`'s tree is searched in both branches). -/
def errorsIs (e target : GoError) : Bool :=
  e == target ||
    match e with
    | .wrapf _ inner => errorsIs inner target
    | .join2 a b => errorsIs a target || errorsIs b target
    | _ => false

/-- `stateRollbackError` (uow.go lines 88-90):
`errors.Join(fmt.Errorf("state rollback: %w", err), ErrRollback)`. -/
def stateRollbackError (err : GoError) : GoError :=
  .join2 (.wrapf "state rollback" err) .errRollback

/-- One collaborator call made by `Atomic`, in the order performed.
`commit` and `close` are the `AtomicContext` capabilities that `Atomic`
never invokes; they are in the vocabulary so that their absence is a
statement about the trace. -/
inductive Call (Ev : Type) where
  | begin
  | newContext
  | withCancel
  | body
  | cancel
  | rollback
  | collectEvents
  | publish (events : List Ev)
  | commit
  | close
  | logError
deriving DecidableEq, Repr

/-- Outcome of the context factory `uow.newContext(tx)`: a context, a
non-nil error, or a panic escaping the factory. -/
inductive FactoryRes (PV : Type) where
  | ok
  | err (e : GoError)
  | panic (p : PV)
deriving DecidableEq, Repr

/-- Outcome of the body `do(txCtx, atomicCtx)`: nil, a non-nil error, or
a panic. -/
inductive BodyRes (PV : Type) where
  | ok
  | err (e : GoError)
  | panic (p : PV)
deriving DecidableEq, Repr

/-- How one call to `Atomic` ends: a returned `error` value (`none` is
Go's nil) or a panic value propagating out. -/
inductive Outcome (PV : Type) where
  | ret (e : Option GoError)
  | panicked (p : PV)
deriving DecidableEq, Repr

/-- Behaviour of all collaborators for one `Atomic` attempt.
`beginRes` is the error of `uow.db.Begin(ctx)` (`none` = success);
`factoryRes` the outcome of `uow.newContext(tx)`;
`bodyRes` the outcome of `do(txCtx, atomicCtx)`;
`rollbackRes` the error of `tx.Rollback()` (`none` = success);
`collected` what `atomicCtx.CollectEvents()` returns once the body has
run; `publishRes` the error of `uow.msgBus.PublishEvents(events...)` as a
function of the batch it receives. -/
structure World (Ev PV : Type) where
  beginRes : Option GoError
  factoryRes : FactoryRes PV
  bodyRes : BodyRes PV
  rollbackRes : Option GoError
  collected : List Ev
  publishRes : List Ev → Option GoError

/-- `UnitOfWork.Atomic` (uow.go lines 47-86): outcome and ordered call
trace.  Control flow follows the source; see the module comment for the
line-by-line correspondence, including the LIFO order of the deferred
`cancel` and the deferred recover block. -/
def Atomic {Ev PV : Type} (w : World Ev PV) : Outcome PV × List (Call Ev) :=
  match w.beginRes with
  | some err => (.ret (some (stateRollbackError err)), [.begin])
  | none =>
    match w.factoryRes with
    | .panic p => (.panicked p, [.begin, .newContext])
    | .err err => (.ret (some (stateRollbackError err)), [.begin, .newContext])
    | .ok =>
      let pre : List (Call Ev) := [.begin, .newContext, .withCancel]
      match w.bodyRes with
      | .panic p =>
        (.panicked p,
          pre ++ [.body, .cancel, .rollback]
            ++ if w.rollbackRes.isSome then [.logError] else [])
      | .err e =>
        (.ret (some (stateRollbackError e)),
          pre ++ [.body, .rollback]
            ++ (if w.rollbackRes.isSome then [.logError] else [])
            ++ [.cancel])
      | .ok =>
        match w.publishRes w.collected with
        | some g =>
          (.ret (some g),
            pre ++ [.body, .collectEvents, .publish w.collected,
              .logError, .cancel])
        | none =>
          (.ret none,
            pre ++ [.body, .collectEvents, .publish w.collected, .cancel])

/-- Is this call a `tx.Rollback()`? -/
def Call.isRollback {Ev : Type} : Call Ev → Bool
  | .rollback => true
  | _ => false

/-- Is this call a `msgBus.PublishEvents(...)`? -/
def Call.isPublish {Ev : Type} : Call Ev → Bool
  | .publish _ => true
  | _ => false

/-- Is this call an `atomicCtx.Commit()`? -/
def Call.isCommit {Ev : Type} : Call Ev → Bool
  | .commit => true
  | _ => false

/-- Is this call an `atomicCtx.Close()`? -/
def Call.isClose {Ev : Type} : Call Ev → Bool
  | .close => true
  | _ => false

/-- Is this call an invocation of the body `do`? -/
def Call.isBody {Ev : Type} : Call Ev → Bool
  | .body => true
  | _ => false

/-- Is this call an invocation of the context factory? -/
def Call.isNewContext {Ev : Type} : Call Ev → Bool
  | .newContext => true
  | _ => false

/-- Is this call a `logger.Error(...)`? -/
def Call.isLogError {Ev : Type} : Call Ev → Bool
  | .logError => true
  | _ => false

end UnitOfWork


namespace UnitOfWork

/-- `errors.Is(e, e)` holds: the chain starts at `e` itself. -/
theorem errorsIs_self (e : GoError) : errorsIs e e = true := by
  unfold errorsIs
  simp

/-- An error wrapped with `fmt.Errorf("...: %w", inner)` still matches
anything `inner` matches. -/
theorem errorsIs_wrapf_of (s : String) (inner t : GoError)
    (h : errorsIs inner t = true) : errorsIs (.wrapf s inner) t = true := by
  unfold errorsIs
  simp [h]

/-- `errors.Is(stateRollbackError(e), ErrRollback)` holds: the join's
second operand is the `ErrRollback` sentinel. -/
theorem errorsIs_rollback_mark (e : GoError) :
    errorsIs (stateRollbackError e) GoError.errRollback = true := by
  unfold stateRollbackError
  unfold errorsIs
  simp [errorsIs_self]

/-- `errors.Is(stateRollbackError(e), e)` holds: the join's first operand
wraps the cause `e` with `%w`. -/
theorem errorsIs_state_cause (e : GoError) :
    errorsIs (stateRollbackError e) e = true := by
  unfold stateRollbackError
  unfold errorsIs
  simp [errorsIs_wrapf_of _ _ _ (errorsIs_self e)]

/-- C1: when `Begin` and the context factory succeed, the body returns
nil and the sink's publish succeeds, `Atomic` performs exactly one
`PublishEvents` call, whose batch is exactly the collected events in
their insertion order, and returns nil. -/
theorem atomic_happy_path {Ev PV : Type} (w : World Ev PV)
    (hb : w.beginRes = none) (hf : w.factoryRes = .ok)
    (hd : w.bodyRes = .ok) (hp : w.publishRes w.collected = none) :
    (Atomic w).1 = .ret none ∧
      (Atomic w).2.filter Call.isPublish = [.publish w.collected] := by
  simp [Atomic, hb, hf, hd, hp, Call.isPublish]

/-- Concrete collaborators for the happy path: both events delivered,
everything succeeds. -/
def happyWorld : World Nat Nat :=
  { beginRes := none, factoryRes := .ok, bodyRes := .ok,
    rollbackRes := none, collected := [1, 2], publishRes := fun _ => none }

/-- C1 witness: the happy-path theorem at `happyWorld`, whose body
collected the events `[1, 2]`. -/
theorem atomic_happy_path_witness :
    (Atomic happyWorld).1 = .ret none ∧
      (Atomic happyWorld).2.filter Call.isPublish = [.publish [1, 2]] :=
  atomic_happy_path happyWorld rfl rfl rfl rfl

/-- C2: when the body returns a non-nil error `E`, `Atomic` rolls the
transaction back exactly once, never publishes, and returns
`stateRollbackError E`, which matches both `ErrRollback` and `E` under
`errors.Is`; this holds whatever `Rollback` itself returns, and a failed
rollback is logged while the returned error stays `stateRollbackError E`. -/
theorem atomic_body_error {Ev PV : Type} (w : World Ev PV) (E : GoError)
    (hb : w.beginRes = none) (hf : w.factoryRes = .ok)
    (hd : w.bodyRes = .err E) :
    (Atomic w).1 = .ret (some (stateRollbackError E)) ∧
      ((Atomic w).2.filter Call.isRollback).length = 1 ∧
      (Atomic w).2.filter Call.isPublish = [] ∧
      errorsIs (stateRollbackError E) GoError.errRollback = true ∧
      errorsIs (stateRollbackError E) E = true ∧
      (w.rollbackRes.isSome = true → Call.logError ∈ (Atomic w).2) := by
  cases hr : w.rollbackRes <;>
    simp [Atomic, hb, hf, hd, hr, Call.isRollback, Call.isPublish,
      errorsIs_rollback_mark, errorsIs_state_cause]

/-- Concrete collaborators where the body fails with `base 7` and the
rollback itself also fails with `base 9`. -/
def bodyErrWorld : World Nat Nat :=
  { beginRes := none, factoryRes := .ok, bodyRes := .err (.base 7),
    rollbackRes := some (.base 9), collected := [1],
    publishRes := fun _ => none }

/-- C2 witness: the body-error theorem at `bodyErrWorld`, where the
rollback also fails and is logged. -/
theorem atomic_body_error_witness :
    (Atomic bodyErrWorld).1
        = .ret (some (stateRollbackError (.base 7))) ∧
      ((Atomic bodyErrWorld).2.filter Call.isRollback).length = 1 ∧
      (Atomic bodyErrWorld).2.filter Call.isPublish = [] ∧
      errorsIs (stateRollbackError (.base 7)) GoError.errRollback = true ∧
      errorsIs (stateRollbackError (.base 7)) (.base 7) = true ∧
      (bodyErrWorld.rollbackRes.isSome = true →
        Call.logError ∈ (Atomic bodyErrWorld).2) :=
  atomic_body_error bodyErrWorld (.base 7) rfl rfl rfl

/-- C3: when `db.Begin` fails with `F`, `Atomic` returns
`stateRollbackError F` — matching both `F` and `ErrRollback` — after a
trace of just the `Begin` call: the body, the factory and the sink are
never invoked. -/
theorem atomic_begin_error {Ev PV : Type} (w : World Ev PV) (F : GoError)
    (hb : w.beginRes = some F) :
    (Atomic w).1 = .ret (some (stateRollbackError F)) ∧
      (Atomic w).2 = [.begin] ∧
      (Atomic w).2.filter Call.isBody = [] ∧
      (Atomic w).2.filter Call.isNewContext = [] ∧
      (Atomic w).2.filter Call.isPublish = [] ∧
      errorsIs (stateRollbackError F) F = true ∧
      errorsIs (stateRollbackError F) GoError.errRollback = true := by
  simp [Atomic, hb, Call.isBody, Call.isNewContext, Call.isPublish,
    errorsIs_state_cause, errorsIs_rollback_mark]

/-- Concrete collaborators whose `Begin` fails with `base 3`. -/
def beginErrWorld : World Nat Nat :=
  { beginRes := some (.base 3), factoryRes := .ok, bodyRes := .ok,
    rollbackRes := none, collected := [], publishRes := fun _ => none }

/-- C3 witness: the begin-error theorem at `beginErrWorld`. -/
theorem atomic_begin_error_witness :
    (Atomic beginErrWorld).1
        = .ret (some (stateRollbackError (.base 3))) ∧
      (Atomic beginErrWorld).2 = [.begin] ∧
      (Atomic beginErrWorld).2.filter Call.isBody = [] ∧
      (Atomic beginErrWorld).2.filter Call.isNewContext = [] ∧
      (Atomic beginErrWorld).2.filter Call.isPublish = [] ∧
      errorsIs (stateRollbackError (.base 3)) (.base 3) = true ∧
      errorsIs (stateRollbackError (.base 3)) GoError.errRollback = true :=
  atomic_begin_error beginErrWorld (.base 3) rfl

/-- C4: when the body panics with `P` after `Begin` and the factory
succeeded, `Atomic` rolls back exactly once, never publishes, and the
panic value `P` propagates out unchanged rather than becoming a returned
error. -/
theorem atomic_body_panic {Ev PV : Type} (w : World Ev PV) (P : PV)
    (hb : w.beginRes = none) (hf : w.factoryRes = .ok)
    (hd : w.bodyRes = .panic P) :
    (Atomic w).1 = .panicked P ∧
      ((Atomic w).2.filter Call.isRollback).length = 1 ∧
      (Atomic w).2.filter Call.isPublish = [] := by
  cases hr : w.rollbackRes <;>
    simp [Atomic, hb, hf, hd, hr, Call.isRollback, Call.isPublish]

/-- Concrete collaborators whose body panics with the value `5`. -/
def bodyPanicWorld : World Nat Nat :=
  { beginRes := none, factoryRes := .ok, bodyRes := .panic 5,
    rollbackRes := none, collected := [1], publishRes := fun _ => none }

/-- C4 witness: the body-panic theorem at `bodyPanicWorld`. -/
theorem atomic_body_panic_witness :
    (Atomic bodyPanicWorld).1 = .panicked 5 ∧
      ((Atomic bodyPanicWorld).2.filter Call.isRollback).length = 1 ∧
      (Atomic bodyPanicWorld).2.filter Call.isPublish = [] :=
  atomic_body_panic bodyPanicWorld 5 rfl rfl rfl

end UnitOfWork

namespace UnitOfWork

/-- Concrete collaborators whose sink fails with the `ErrRollback`
sentinel itself, after a successful body. -/
def sinkRollbackWorld : World Nat Nat :=
  { beginRes := none, factoryRes := .ok, bodyRes := .ok,
    rollbackRes := none, collected := [1],
    publishRes := fun _ => some .errRollback }

/-- C5 counterexample: `Atomic` returns a failing sink's error
unchanged, so when the sink fails with `ErrRollback` itself the returned
error does satisfy `errors.Is(err, ErrRollback)` — refuting the claim
that it is false for every failing sink. -/
theorem atomic_publish_error_counterexample :
    (Atomic sinkRollbackWorld).1 = .ret (some .errRollback) ∧
      errorsIs .errRollback .errRollback = true :=
  ⟨rfl, by decide⟩

/-- C5 (amended): when the body returns nil and the sink's publish fails
with an error `G` that does not itself match `ErrRollback`, `Atomic`
returns exactly `G` — which matches `G` and not `ErrRollback` under
`errors.Is` — and `Rollback` is never invoked on this path. -/
theorem atomic_publish_error {Ev PV : Type} (w : World Ev PV) (G : GoError)
    (hb : w.beginRes = none) (hf : w.factoryRes = .ok)
    (hd : w.bodyRes = .ok) (hp : w.publishRes w.collected = some G)
    (hG : errorsIs G GoError.errRollback = false) :
    (Atomic w).1 = .ret (some G) ∧
      errorsIs G G = true ∧
      (∀ e, (Atomic w).1 = .ret (some e) →
        errorsIs e GoError.errRollback = false) ∧
      (Atomic w).2.filter Call.isRollback = [] := by
  have h1 : (Atomic w).1 = .ret (some G) := by
    simp [Atomic, hb, hf, hd, hp]
  refine ⟨h1, errorsIs_self G, ?_, ?_⟩
  · intro e he
    rw [h1] at he
    have hge : G = e := by
      injection he with h
      injection h
    exact hge ▸ hG
  · simp [Atomic, hb, hf, hd, hp, Call.isRollback]

/-- Concrete collaborators whose sink fails with the distinct error
`base 4`. -/
def pubErrWorld : World Nat Nat :=
  { beginRes := none, factoryRes := .ok, bodyRes := .ok,
    rollbackRes := none, collected := [3],
    publishRes := fun _ => some (.base 4) }

/-- C5 witness: the publish-error theorem at `pubErrWorld`. -/
theorem atomic_publish_error_witness :
    (Atomic pubErrWorld).1 = .ret (some (.base 4)) ∧
      errorsIs (.base 4) (.base 4) = true ∧
      (∀ e, (Atomic pubErrWorld).1 = .ret (some e) →
        errorsIs e GoError.errRollback = false) ∧
      (Atomic pubErrWorld).2.filter Call.isRollback = [] :=
  atomic_publish_error pubErrWorld (.base 4) rfl rfl rfl rfl (by decide)

/-- C6: once `Begin` and the factory have succeeded, the trace holds
exactly one `Rollback` call iff the body returned a non-nil error or
panicked, and exactly one `PublishEvents` call iff the body returned
nil. -/
theorem atomic_rollback_publish_discipline {Ev PV : Type}
    (w : World Ev PV) (hb : w.beginRes = none) (hf : w.factoryRes = .ok) :
    (((Atomic w).2.filter Call.isRollback).length = 1 ↔
        (∃ e, w.bodyRes = .err e) ∨ (∃ p, w.bodyRes = .panic p)) ∧
      (((Atomic w).2.filter Call.isPublish).length = 1 ↔
        w.bodyRes = .ok) := by
  cases hd : w.bodyRes with
  | ok =>
    cases hp : w.publishRes w.collected <;>
      simp [Atomic, hb, hf, hd, hp, Call.isRollback, Call.isPublish]
  | err e =>
    cases hr : w.rollbackRes <;>
      simp [Atomic, hb, hf, hd, hr, Call.isRollback, Call.isPublish]
  | panic p =>
    cases hr : w.rollbackRes <;>
      simp [Atomic, hb, hf, hd, hr, Call.isRollback, Call.isPublish]

/-- Concrete collaborators whose body fails with `base 2`, for the
rollback/publish discipline. -/
def disciplineWorld : World Nat Nat :=
  { beginRes := none, factoryRes := .ok, bodyRes := .err (.base 2),
    rollbackRes := none, collected := [], publishRes := fun _ => none }

/-- C6 witness: the discipline theorem at `disciplineWorld`. -/
theorem atomic_rollback_publish_discipline_witness :
    (((Atomic disciplineWorld).2.filter Call.isRollback).length = 1 ↔
        (∃ e, disciplineWorld.bodyRes = .err e) ∨
          (∃ p, disciplineWorld.bodyRes = .panic p)) ∧
      (((Atomic disciplineWorld).2.filter Call.isPublish).length = 1 ↔
        disciplineWorld.bodyRes = .ok) :=
  atomic_rollback_publish_discipline disciplineWorld rfl rfl

/-- C7: when the context factory fails with `E` after a successful
`Begin`, `Atomic` returns `stateRollbackError E` — matching both `E` and
`ErrRollback` — and `Rollback` is never invoked on the already-acquired
handle before returning. -/
theorem atomic_factory_error {Ev PV : Type} (w : World Ev PV) (E : GoError)
    (hb : w.beginRes = none) (hf : w.factoryRes = .err E) :
    (Atomic w).1 = .ret (some (stateRollbackError E)) ∧
      errorsIs (stateRollbackError E) E = true ∧
      errorsIs (stateRollbackError E) GoError.errRollback = true ∧
      (Atomic w).2.filter Call.isRollback = [] := by
  simp [Atomic, hb, hf, Call.isRollback, errorsIs_state_cause,
    errorsIs_rollback_mark]

/-- Concrete collaborators whose factory fails with `base 6`. -/
def factoryErrWorld : World Nat Nat :=
  { beginRes := none, factoryRes := .err (.base 6), bodyRes := .ok,
    rollbackRes := none, collected := [], publishRes := fun _ => none }

/-- C7 witness: the factory-error theorem at `factoryErrWorld`. -/
theorem atomic_factory_error_witness :
    (Atomic factoryErrWorld).1
        = .ret (some (stateRollbackError (.base 6))) ∧
      errorsIs (stateRollbackError (.base 6)) (.base 6) = true ∧
      errorsIs (stateRollbackError (.base 6)) GoError.errRollback = true ∧
      (Atomic factoryErrWorld).2.filter Call.isRollback = [] :=
  atomic_factory_error factoryErrWorld (.base 6) rfl rfl

/-- C8: `Atomic` never invokes the atomic context's `Commit` or `Close`
on any execution path — in particular never on the success path — even
though both are part of the `AtomicContext` interface. -/
theorem atomic_never_commit_never_close {Ev PV : Type} (w : World Ev PV) :
    (Atomic w).2.filter Call.isCommit = [] ∧
      (Atomic w).2.filter Call.isClose = [] := by
  obtain ⟨br, fr, dr, rr, col, pr⟩ := w
  cases br <;> cases fr <;> cases dr <;> cases rr <;>
    cases hp : pr col <;>
      simp [Atomic, Call.isCommit, Call.isClose, hp]

/-- C9: when the context factory panics with `P` after a successful
`Begin`, the panic propagates out of `Atomic` and `Rollback` is never
invoked — the recover-based cleanup guard is installed only after the
factory returns, so the transaction handle is left open, unlike for a
panicking body. -/
theorem atomic_factory_panic {Ev PV : Type} (w : World Ev PV) (P : PV)
    (hb : w.beginRes = none) (hf : w.factoryRes = .panic P) :
    (Atomic w).1 = .panicked P ∧
      (Atomic w).2.filter Call.isRollback = [] := by
  simp [Atomic, hb, hf, Call.isRollback]

/-- Concrete collaborators whose factory panics with the value `8`. -/
def factoryPanicWorld : World Nat Nat :=
  { beginRes := none, factoryRes := .panic 8, bodyRes := .ok,
    rollbackRes := none, collected := [], publishRes := fun _ => none }

/-- C9 witness: the factory-panic theorem at `factoryPanicWorld`. -/
theorem atomic_factory_panic_witness :
    (Atomic factoryPanicWorld).1 = .panicked 8 ∧
      (Atomic factoryPanicWorld).2.filter Call.isRollback = [] :=
  atomic_factory_panic factoryPanicWorld 8 rfl rfl

/-- C10: when the body returns nil and `CollectEvents` yields the empty
sequence, the sink is still called exactly once, with a batch of zero
events — the publish step is not skipped. -/
theorem atomic_publish_called_with_empty {Ev PV : Type} (w : World Ev PV)
    (hb : w.beginRes = none) (hf : w.factoryRes = .ok)
    (hd : w.bodyRes = .ok) (hc : w.collected = []) :
    (Atomic w).2.filter Call.isPublish = [.publish []] := by
  cases hp : w.publishRes [] <;>
    simp [Atomic, hb, hf, hd, hc, hp, Call.isPublish]

/-- Concrete collaborators whose body emits no events. -/
def emptyEventsWorld : World Nat Nat :=
  { beginRes := none, factoryRes := .ok, bodyRes := .ok,
    rollbackRes := none, collected := [], publishRes := fun _ => none }

/-- C10 witness: the empty-batch theorem at `emptyEventsWorld`. -/
theorem atomic_publish_called_with_empty_witness :
    (Atomic emptyEventsWorld).2.filter Call.isPublish = [.publish []] :=
  atomic_publish_called_with_empty emptyEventsWorld rfl rfl rfl rfl

end UnitOfWork
